import Mathlib

/-!
Verification development for the soup-schema library
(src/soup_schema/selector.py, src/soup_schema/schema.py).

The markup-parsing/tree-query engine (BeautifulSoup) is an external
collaborator: we model a parsed tree only through the node capability set the
library consumes, namely `select(pattern)` returning the matching descendant
elements in document order (`select_one` is its first element), an attribute
mapping from names to strings, and a text content string. Resolution logic,
Python truthiness, exception flow and the class hierarchy are embedded from
the source.
-/

namespace SoupSchema

/-- A tree element as the library consumes it: `elm.attrs` (mapping of attribute
name to string value, modelled as an association list with lookup-first
semantics) and `elm.text` (text content). -/
structure Elem where
  attrs : List (String × String)
  text : String
deriving DecidableEq

/-- The parsed document (or sub-tree node) capability used by `resolve`:
`select(pattern)` returns all matching descendant elements in document order. -/
structure Soup where
  select : String → List Elem

/-- `soup.select_one(pattern)`: first matching element in document order, or
None when there is no match. -/
def Soup.selectOne (soup : Soup) (p : String) : Option Elem :=
  (soup.select p).head?

/-- A resolved value as the Python code produces it: `None`, a string, or a
list (whose entries come from per-element value extraction, hence strings or
`None`). -/
inductive Value where
  | none : Value
  | str : String → Value
  | list : List Value → Value

/-- Python truthiness on the values the library manipulates: `None`, the empty
string and the empty list are falsy; any non-empty string or non-empty list is
truthy (regardless of the list's elements). This is what `if not value` and
`if value` test in selector.py. -/
def Value.truthy : Value → Bool
  | Value.none => false
  | Value.str s => !s.isEmpty
  | Value.list xs => !xs.isEmpty

/-- The selector objects a Schema can hold, by class:
`Sel.base selector required as_list` is `Selector(selector, required, as_list)`;
`Sel.attr selector attribute required as_list` is
`AttrSelector(selector, attribute, required=required, as_list=as_list)`;
`Sel.any selectors required` is `AnySelector(selectors, required)`.
`SchemaSelector` instances are absent because their constructor raises
(see `SchemaSelector.init` below). -/
inductive Sel where
  | base : String → Bool → Bool → Sel
  | attr : String → String → Bool → Bool → Sel
  | any : List Sel → Bool → Sel

/-- The single error kind the library raises during resolution.
`Selector.resolve` formats its message from `self.selector` (the pattern);
`AnySelector.resolve` formats its message from `self.selectors` (the member
list). We carry those payloads structurally. -/
inductive ValidationError where
  | noneFound : String → ValidationError
  | anyExhausted : List Sel → ValidationError

/-- `Selector._get_value(elm)`: `None` for a missing element; the `content`
attribute's string value when that attribute is present; otherwise the
element's text content. -/
def Selector.getValue : Option Elem → Value
  | Option.none => Value.none
  | Option.some e =>
    match e.attrs.lookup "content" with
    | Option.some c => Value.str c
    | Option.none => Value.str e.text

/-- `AttrSelector._get_value(elm)`: `None` for a missing element; otherwise
`elm.attrs.get(self.attribute)` — the target attribute's value if present,
else `None`, never consulting the `content` heuristic. -/
def AttrSelector.getValue (attrName : String) : Option Elem → Value
  | Option.none => Value.none
  | Option.some e =>
    match e.attrs.lookup attrName with
    | Option.some v => Value.str v
    | Option.none => Value.none

/-- The `value` computed by `Selector.resolve` before the required check:
all matches mapped through `_get_value` when `as_list`, else `_get_value` of
`select_one`'s result. -/
def Selector.extract (getVal : Option Elem → Value) (p : String) (asList : Bool)
    (soup : Soup) : Value :=
  if asList then Value.list ((soup.select p).map (fun e => getVal (Option.some e)))
  else getVal (soup.selectOne p)

mutual

/-- Resolution semantics of selector.py. For `Sel.base` and `Sel.attr` this is
`Selector.resolve` (the value is computed, then
`if not value and self.required: raise ValidationError(...)` with a message
naming the pattern, else the value is returned). For `Sel.any` this is
`AnySelector.resolve`: try members left to right via `AnySelector.first`; on
exhaustion raise when required (message naming the member list), else fall off
the end returning `None`. -/
def Sel.resolve : Sel → Soup → Except ValidationError Value
  | Sel.base p req asList, soup =>
    let value := Selector.extract Selector.getValue p asList soup
    if !value.truthy && req then Except.error (ValidationError.noneFound p)
    else Except.ok value
  | Sel.attr p a req asList, soup =>
    let value := Selector.extract (AttrSelector.getValue a) p asList soup
    if !value.truthy && req then Except.error (ValidationError.noneFound p)
    else Except.ok value
  | Sel.any sels req, soup =>
    match AnySelector.first sels soup with
    | Option.some v => Except.ok v
    | Option.none =>
      if req then Except.error (ValidationError.anyExhausted sels)
      else Except.ok Value.none

/-- The member loop of `AnySelector.resolve`: resolve each member in order; a
ValidationError from a member is caught and discarded; the first truthy value
is returned; a falsy value is skipped. `Option.none` means the loop exhausted
all members without a truthy value. -/
def AnySelector.first : List Sel → Soup → Option Value
  | [], _ => Option.none
  | s :: rest, soup =>
    match Sel.resolve s soup with
    | Except.error _ => AnySelector.first rest soup
    | Except.ok v => if v.truthy then Option.some v else AnySelector.first rest soup

end

/-!
Schema orchestration (src/soup_schema/schema.py).

A Schema subclass is a Python class whose own dictionary binds field names to
selector objects. `Schema._get_selectors` iterates `cls.__dict__.items()` and
keeps the entries whose value is a Selector instance: in CPython a class
dictionary preserves definition order, so we model the outcome as the list of
(name, selector) pairs in declaration order — and, crucially, `cls.__dict__`
holds only attributes defined directly on `cls`, never inherited ones, which
is why the model keeps the parent class separate from `ownSelectors`.
-/

/-- A Schema subclass: its own class-dictionary selector entries (declaration
order) and its base class, when the base is itself a Schema subclass. -/
inductive SchemaClass where
  | mk : List (String × Sel) → Option SchemaClass → SchemaClass

/-- The class's own selector entries, as bound in its class dictionary. -/
def SchemaClass.ownSelectors : SchemaClass → List (String × Sel)
  | SchemaClass.mk own _ => own

/-- The base class, when it is a Schema subclass. -/
def SchemaClass.parentClass : SchemaClass → Option SchemaClass
  | SchemaClass.mk _ par => par

/-- `Schema._get_selectors()`: iterates `cls.__dict__.items()` — the class's
OWN dictionary — keeping Selector-valued entries. Inherited entries never
appear because `cls.__dict__` does not contain them. -/
def SchemaClass.getSelectors (cls : SchemaClass) : List (String × Sel) :=
  cls.ownSelectors

/-- The field-resolution loop of `Schema.parse`: for each (name, selector) in
order, resolve against the shared tree and bind the result; the first
ValidationError propagates immediately, so later fields are never resolved and
no record is produced. A successful run yields the record instance as the
ordered list of (field name, resolved value) bindings. -/
def parseFields : List (String × Sel) → Soup → Except ValidationError (List (String × Value))
  | [], _ => Except.ok []
  | (n, s) :: rest, soup =>
    match Sel.resolve s soup with
    | Except.error e => Except.error e
    | Except.ok v =>
      match parseFields rest soup with
      | Except.error e => Except.error e
      | Except.ok record => Except.ok ((n, v) :: record)

/-- `Schema.parse(html)`: the document is parsed once by the external engine
(we start from the resulting tree) and every selector returned by
`_get_selectors` is resolved against it in order. -/
def SchemaClass.parse (cls : SchemaClass) (soup : Soup) :
    Except ValidationError (List (String × Value)) :=
  parseFields cls.getSelectors soup

/-- The field names listed by `Schema.__repr__`: it iterates
`self.__class__._get_selectors()` again, so exactly the class's own selector
names appear, in the same order. -/
def SchemaClass.reprFields (cls : SchemaClass) : List String :=
  cls.getSelectors.map Prod.fst

/-- The attribute names defined in the body of class `Schema` (schema.py):
the class exposes `_get_selectors`, `parse` and `__repr__` and nothing else —
in particular no `resolve` method, although `SchemaSelector._get_value` calls
`self.schema.resolve(elm)`. -/
def schemaClassAttrs : List String :=
  ["_get_selectors", "parse", "__repr__"]

/-!
Class hierarchy of selector.py and the `SchemaSelector` constructor.

The source declares `class Selector(object)`, `class AttrSelector(Selector)`,
`class SchemaSelector(Selector)` and `class AnySelector(Selector)`.
`SchemaSelector.__init__` executes
`super(AttrSelector, self).__init__(selector=selector, *args, **kwargs)`:
CPython's `super(T, obj)` requires `isinstance(obj, T)` and raises TypeError
otherwise, before any attribute of `self` is assigned.
-/

/-- The classes defined by the library (plus `object`). -/
inductive PyClass where
  | objectClass : PyClass
  | selectorClass : PyClass
  | attrSelectorClass : PyClass
  | schemaSelectorClass : PyClass
  | anySelectorClass : PyClass
deriving DecidableEq

/-- Each class together with its ancestors, per the `class C(B)` headers of
selector.py: every selector class derives directly from `Selector`, which
derives from `object`. -/
def PyClass.ancestors : PyClass → List PyClass
  | PyClass.objectClass => [PyClass.objectClass]
  | PyClass.selectorClass => [PyClass.selectorClass, PyClass.objectClass]
  | PyClass.attrSelectorClass =>
    [PyClass.attrSelectorClass, PyClass.selectorClass, PyClass.objectClass]
  | PyClass.schemaSelectorClass =>
    [PyClass.schemaSelectorClass, PyClass.selectorClass, PyClass.objectClass]
  | PyClass.anySelectorClass =>
    [PyClass.anySelectorClass, PyClass.selectorClass, PyClass.objectClass]

/-- `issubclass(c, d)` over the library's single-inheritance hierarchy. -/
def PyClass.isSubclassOf (c d : PyClass) : Bool :=
  d ∈ c.ancestors

/-- Errors a constructor can raise. -/
inductive PyError where
  | typeError : String → PyError
deriving DecidableEq

/-- CPython's message for a failed `super(type, obj)` check. -/
def superTypeErrorMsg : String :=
  "super(type, obj): obj must be an instance or subtype of type"

/-- The object a successful `SchemaSelector.__init__` would produce: the
fields `super().__init__` assigns plus `self.schema`. -/
structure SchemaSelectorObj where
  selector : String
  required : Bool
  asList : Bool
  schema : SchemaClass

/-- `SchemaSelector.__init__(self, selector, schema, *args, **kwargs)` where
`cls` is the runtime class of `self` (a `SchemaSelector` or a subclass of it).
The body's first statement is `super(AttrSelector, self).__init__(...)`, which
CPython evaluates by checking `isinstance(self, AttrSelector)`: on failure a
TypeError is raised before `self.schema` (or any other field) is assigned. -/
def SchemaSelector.init (cls : PyClass) (selector : String) (schema : SchemaClass)
    (required asList : Bool) : Except PyError SchemaSelectorObj :=
  if cls.isSubclassOf PyClass.attrSelectorClass then
    Except.ok ⟨selector, required, asList, schema⟩
  else
    Except.error (PyError.typeError superTypeErrorMsg)

/-!
Concrete fixtures used to instantiate the theorems below: a small document in
the style of the library's own docstrings and tests.
-/

/-- A list item with empty text content and no attributes. -/
def liEmpty : Elem := ⟨[], ""⟩

/-- A title element with text content Hello. -/
def titleElem : Elem := ⟨[], "Hello"⟩

/-- A meta-style description element whose value lives in its content
attribute. -/
def metaDesc : Elem := ⟨[("name", "description"), ("content", "A desc")], ""⟩

/-- An element carrying both a content attribute and a datetime attribute. -/
def timeElem : Elem := ⟨[("content", "C"), ("datetime", "PT30M")], "30 minutes"⟩

/-- A concrete parsed document: two empty list items, a title, a meta
description, and a timing element; every other pattern matches nothing. -/
def demoSoup : Soup :=
  ⟨fun p =>
    if p = "li" then [liEmpty, liEmpty]
    else if p = "title" then [titleElem]
    else if p = "[name=description]" then [metaDesc]
    else if p = "[itemprop=cookTime]" then [timeElem]
    else []⟩

/-!
Shared helper lemmas about the field-resolution loop.
-/

/-- A successful parse binds exactly the enumerated field names, in order. -/
theorem parseFields_names (fields : List (String × Sel)) (soup : Soup)
    (record : List (String × Value)) (h : parseFields fields soup = Except.ok record) :
    record.map Prod.fst = fields.map Prod.fst := by
  induction fields generalizing record with
  | nil =>
    simp only [parseFields] at h
    cases h
    rfl
  | cons x rest ih =>
    obtain ⟨n, s⟩ := x
    simp only [parseFields] at h
    cases hr : Sel.resolve s soup with
    | error e => rw [hr] at h; cases h
    | ok v =>
      rw [hr] at h
      cases hp : parseFields rest soup with
      | error e => rw [hp] at h; cases h
      | ok r2 =>
        rw [hp] at h
        cases h
        simpa using ih r2 hp

/-- When every field before position i resolves successfully and the field at
position i raises, the loop surfaces exactly that error, whatever comes
after. -/
theorem parseFields_prefix_error (pre : List (String × Sel)) (n : String) (s : Sel)
    (rest : List (String × Sel)) (soup : Soup) (e : ValidationError)
    (hpre : ∀ x ∈ pre, ∃ v, Sel.resolve x.2 soup = Except.ok v)
    (hs : Sel.resolve s soup = Except.error e) :
    parseFields (pre ++ (n, s) :: rest) soup = Except.error e := by
  induction pre with
  | nil => simp [parseFields, hs]
  | cons x pp ih =>
    obtain ⟨m, t⟩ := x
    obtain ⟨v, hv⟩ := hpre (m, t) (List.mem_cons_self _ _)
    have hrec := ih (fun y hy => hpre y (List.mem_cons_of_mem _ hy))
    simp [parseFields, hv, hrec]

/-- The fallback loop exhausts exactly when every member either raises a
ValidationError or resolves to a falsy value. -/
theorem anyFirst_none_iff (sels : List Sel) (soup : Soup) :
    AnySelector.first sels soup = Option.none
      ↔ ∀ s ∈ sels, (∃ e, Sel.resolve s soup = Except.error e)
          ∨ (∃ v, Sel.resolve s soup = Except.ok v ∧ v.truthy = false) := by
  induction sels with
  | nil => simp [AnySelector.first]
  | cons s rest ih =>
    simp only [AnySelector.first]
    cases hr : Sel.resolve s soup with
    | error e =>
      simp only [List.mem_cons]
      constructor
      · intro h y hy
        rcases hy with hy | hy
        · subst hy; exact Or.inl ⟨e, hr⟩
        · exact (ih.mp h) y hy
      · intro h
        exact ih.mpr (fun y hy => h y (Or.inr hy))
    | ok v =>
      by_cases hv : v.truthy = true
      · simp only [hv, if_true]
        simp only [List.mem_cons]
        constructor
        · intro h; cases h
        · intro h
          rcases h s (Or.inl rfl) with ⟨e, he⟩ | ⟨w, hw, hwf⟩
          · rw [hr] at he; cases he
          · rw [hr] at hw; cases hw; rw [hv] at hwf; cases hwf
      · have hv' : v.truthy = false := by
          cases hvv : v.truthy
          · rfl
          · exact absurd hvv hv
        simp only [hv', if_false]
        simp only [List.mem_cons]
        constructor
        · intro h y hy
          rcases hy with hy | hy
          · subst hy; exact Or.inr ⟨v, hr, hv'⟩
          · exact (ih.mp h) y hy
        · intro h
          exact ih.mpr (fun y hy => h y (Or.inr hy))

/-!
Claim theorems.
-/

/-- A sub-schema in the style of the SchemaSelector docstring example. -/
def reviewSchema : SchemaClass :=
  SchemaClass.mk
    [("author", Sel.base ".review__author" true false),
     ("review", Sel.base ".review__content" true false)]
    Option.none

/-- C1: the claim that a NestedRule (SchemaSelector) with multi=true returns
one nested record per matched element, resolved via the referenced Schema's
resolve(node), does not hold on the code: constructing the docstring's own
example SchemaSelector raises TypeError (its constructor invokes
super(AttrSelector, self) although SchemaSelector does not derive from
AttrSelector), and the Schema class defines no resolve method for
SchemaSelector._get_value to call. -/
theorem c1_nestedRule_unusable :
    SchemaSelector.init PyClass.schemaSelectorClass ".review" reviewSchema false true
      = Except.error (PyError.typeError superTypeErrorMsg) ∧
    "resolve" ∉ schemaClassAttrs :=
  ⟨rfl, by decide⟩

/-- C2 counterexample: the claim says a member value that is a list whose
elements are all empty strings is treated as no match and skipped. On the
code, such a list is truthy (Python truthiness of a non-empty list ignores
the elements), so the FallbackRule returns it immediately instead of
continuing to the next member, which here would have produced Hello. -/
theorem c2_counterexample :
    Sel.resolve
        (Sel.any [Sel.base "li" false true, Sel.base "title" false false] false)
        demoSoup
      = Except.ok (Value.list [Value.str "", Value.str ""]) ∧
    Sel.resolve (Sel.base "title" false false) demoSoup
      = Except.ok (Value.str "Hello") ∧
    Value.truthy (Value.list [Value.str "", Value.str ""]) = true :=
  ⟨rfl, rfl, rfl⟩

/-- C2 amended: AnySelector skips a member value exactly when it is falsy —
None, the empty string, or the empty list — and first-truthy-wins; but a
NON-empty list is truthy even when every element is an empty string, so it is
returned immediately, not skipped. -/
theorem c2_fallback_truthiness (s : Sel) (rest : List Sel) (soup : Soup) (v : Value)
    (h : Sel.resolve s soup = Except.ok v) :
    AnySelector.first (s :: rest) soup
      = (if v.truthy then Option.some v else AnySelector.first rest soup) ∧
    Value.truthy Value.none = false ∧
    Value.truthy (Value.str "") = false ∧
    Value.truthy (Value.list []) = false ∧
    (∀ w ws, Value.truthy (Value.list (w :: ws)) = true) := by
  refine ⟨?_, rfl, rfl, rfl, fun w ws => rfl⟩
  simp [AnySelector.first, h]

/-- Witness for c2_fallback_truthiness: the all-empty-strings list member of
the counterexample document, evaluated concretely. -/
theorem c2_fallback_truthiness_witness :
    AnySelector.first [Sel.base "li" false true, Sel.base "title" false false] demoSoup
      = (if (Value.list [Value.str "", Value.str ""]).truthy
         then Option.some (Value.list [Value.str "", Value.str ""])
         else AnySelector.first [Sel.base "title" false false] demoSoup) :=
  (c2_fallback_truthiness (Sel.base "li" false true) [Sel.base "title" false false]
      demoSoup (Value.list [Value.str "", Value.str ""]) rfl).1

/-- C9: for every pattern, schema and argument combination, constructing a
SchemaSelector raises TypeError before any field is set: the constructor's
first statement invokes super(AttrSelector, self).__init__ while
SchemaSelector is not a subclass of AttrSelector, so no SchemaSelector object
is ever produced at the public interface. -/
theorem c9_schemaSelector_init_raises (selector : String) (schema : SchemaClass)
    (required asList : Bool) :
    SchemaSelector.init PyClass.schemaSelectorClass selector schema required asList
      = Except.error (PyError.typeError superTypeErrorMsg) := rfl

/-- C3: Selector.resolve raises exactly when required is true and the
extracted value is falsy (None, the empty string, or an empty list), and the
error it raises names the pattern; with required=false it never raises and
returns the possibly absent value; in particular with multi=false over zero
matches it returns None when optional and raises the pattern-naming
ValidationError when required. -/
theorem c3_required_iff (p : String) (req asList : Bool) (soup : Soup) :
    ((∃ e, Sel.resolve (Sel.base p req asList) soup = Except.error e)
        ↔ req = true
          ∧ (Selector.extract Selector.getValue p asList soup).truthy = false) ∧
    (∀ e, Sel.resolve (Sel.base p req asList) soup = Except.error e
        → e = ValidationError.noneFound p) ∧
    (req = false → Sel.resolve (Sel.base p req asList) soup
        = Except.ok (Selector.extract Selector.getValue p asList soup)) ∧
    (∀ v : Value, v.truthy = false
        ↔ v = Value.none ∨ v = Value.str "" ∨ v = Value.list []) ∧
    (soup.select p = [] →
        Sel.resolve (Sel.base p false false) soup = Except.ok Value.none ∧
        Sel.resolve (Sel.base p true false) soup
          = Except.error (ValidationError.noneFound p)) := by
  refine ⟨?_, ?_, ?_, ?_, ?_⟩
  · simp only [Sel.resolve]
    cases hv : (Selector.extract Selector.getValue p asList soup).truthy with
    | false =>
      cases req with
      | false => simp
      | true => simp
    | true =>
      cases req with
      | false => simp
      | true => simp
  · intro e he
    simp only [Sel.resolve] at he
    by_cases hc : (!(Selector.extract Selector.getValue p asList soup).truthy && req) = true
    · rw [if_pos hc] at he
      cases he
      rfl
    · rw [if_neg hc] at he
      cases he
  · intro hreq
    subst hreq
    simp [Sel.resolve]
  · intro v
    cases v with
    | none => simp [Value.truthy]
    | str s =>
      simp only [Value.truthy, Bool.not_eq_false']
      constructor
      · intro h
        exact Or.inr (Or.inl (congrArg Value.str ((String.isEmpty_iff s).mp h)))
      · intro h
        rcases h with h | h | h
        · cases h
        · cases h; rfl
        · cases h
    | list xs =>
      cases xs with
      | nil => simp [Value.truthy]
      | cons w ws => simp [Value.truthy]
  · intro hsel
    constructor
    · simp [Sel.resolve, Selector.extract, Soup.selectOne, hsel, Selector.getValue]
    · simp [Sel.resolve, Selector.extract, Soup.selectOne, hsel, Selector.getValue,
        Value.truthy]

/-- Witness for c3_required_iff: a pattern with zero matches in the concrete
document, optional and required. -/
theorem c3_required_iff_witness :
    Sel.resolve (Sel.base "missing" false false) demoSoup = Except.ok Value.none ∧
    Sel.resolve (Sel.base "missing" true false) demoSoup
      = Except.error (ValidationError.noneFound "missing") :=
  (c3_required_iff "missing" false false demoSoup).2.2.2.2 rfl

/-- C4: with multi=true, every successful resolution — of a base Rule or an
AttributeRule — yields the list of per-match extracted values in document
order (never an absent scalar), and with required=false resolution always
succeeds with that list, which may be empty. -/
theorem c4_multi_always_list (p a : String) (req : Bool) (soup : Soup) :
    (∀ v, Sel.resolve (Sel.base p req true) soup = Except.ok v
        → v = Value.list
            ((soup.select p).map (fun e => Selector.getValue (Option.some e)))) ∧
    (req = false → Sel.resolve (Sel.base p req true) soup
        = Except.ok (Value.list
            ((soup.select p).map (fun e => Selector.getValue (Option.some e))))) ∧
    (∀ v, Sel.resolve (Sel.attr p a req true) soup = Except.ok v
        → v = Value.list
            ((soup.select p).map (fun e => AttrSelector.getValue a (Option.some e)))) ∧
    (req = false → Sel.resolve (Sel.attr p a req true) soup
        = Except.ok (Value.list
            ((soup.select p).map (fun e => AttrSelector.getValue a (Option.some e))))) := by
  refine ⟨?_, ?_, ?_, ?_⟩
  · intro v hv
    simp only [Sel.resolve, Selector.extract, if_true] at hv
    by_cases hc : (!(Value.list
        ((soup.select p).map (fun e => Selector.getValue (Option.some e)))).truthy
        && req) = true
    · rw [if_pos hc] at hv; cases hv
    · rw [if_neg hc] at hv; cases hv; rfl
  · intro hreq
    subst hreq
    simp [Sel.resolve, Selector.extract]
  · intro v hv
    simp only [Sel.resolve, Selector.extract, if_true] at hv
    by_cases hc : (!(Value.list
        ((soup.select p).map (fun e => AttrSelector.getValue a (Option.some e)))).truthy
        && req) = true
    · rw [if_pos hc] at hv; cases hv
    · rw [if_neg hc] at hv; cases hv; rfl
  · intro hreq
    subst hreq
    simp [Sel.resolve, Selector.extract]

/-- Witness for c4_multi_always_list: both list results evaluated on the
concrete document — the two empty list items for the base rule, and the
datetime attribute (absent on list items, so None entries) for the attribute
rule. -/
theorem c4_multi_always_list_witness :
    Sel.resolve (Sel.base "li" false true) demoSoup
      = Except.ok (Value.list [Value.str "", Value.str ""]) ∧
    Sel.resolve (Sel.attr "li" "datetime" false true) demoSoup
      = Except.ok (Value.list [Value.none, Value.none]) :=
  ⟨(c4_multi_always_list "li" "datetime" false demoSoup).2.1 rfl,
   (c4_multi_always_list "li" "datetime" false demoSoup).2.2.2 rfl⟩

/-- C5: FallbackRule resolution iterates members left to right, discarding any
ValidationError a member raises; the first truthy member value is returned
immediately; exhaustion happens exactly when every member errors or produces
a falsy value, and on exhaustion the rule raises a ValidationError carrying
the member list when required, else returns None. -/
theorem c5_fallback_semantics (sels : List Sel) (req : Bool) (soup : Soup) :
    (∀ s rest e, Sel.resolve s soup = Except.error e
        → AnySelector.first (s :: rest) soup = AnySelector.first rest soup) ∧
    (∀ s rest v, Sel.resolve s soup = Except.ok v → v.truthy = true
        → AnySelector.first (s :: rest) soup = Option.some v) ∧
    (∀ v, AnySelector.first sels soup = Option.some v
        → Sel.resolve (Sel.any sels req) soup = Except.ok v) ∧
    (AnySelector.first sels soup = Option.none
        → Sel.resolve (Sel.any sels req) soup
            = (if req then Except.error (ValidationError.anyExhausted sels)
               else Except.ok Value.none)) ∧
    (AnySelector.first sels soup = Option.none
        ↔ ∀ s ∈ sels, (∃ e, Sel.resolve s soup = Except.error e)
            ∨ (∃ v, Sel.resolve s soup = Except.ok v ∧ v.truthy = false)) := by
  refine ⟨?_, ?_, ?_, ?_, anyFirst_none_iff sels soup⟩
  · intro s rest e he
    simp [AnySelector.first, he]
  · intro s rest v hv htr
    simp [AnySelector.first, hv, htr]
  · intro v hv
    simp [Sel.resolve, hv]
  · intro hnone
    simp [Sel.resolve, hnone]

/-- Witness for c5_fallback_semantics: a required first member that raises is
discarded and the second member's truthy value is returned. -/
theorem c5_fallback_semantics_witness :
    Sel.resolve
        (Sel.any [Sel.base "missing" true false, Sel.base "title" false false] false)
        demoSoup
      = Except.ok (Value.str "Hello") :=
  (c5_fallback_semantics [Sel.base "missing" true false, Sel.base "title" false false]
      false demoSoup).2.2.1 (Value.str "Hello") rfl

/-- C6: Schema.parse is fail-fast over the deterministic (declaration-order)
field enumeration: when every field before some position resolves
successfully and the field at that position raises, parse surfaces exactly
that error — whatever fields come after it, they are never resolved and
change nothing — and no partial record instance is returned. -/
theorem c6_parse_fail_fast (pre restA restB : List (String × Sel)) (n : String)
    (s : Sel) (par : Option SchemaClass) (soup : Soup) (e : ValidationError)
    (hpre : ∀ x ∈ pre, ∃ v, Sel.resolve x.2 soup = Except.ok v)
    (hs : Sel.resolve s soup = Except.error e) :
    SchemaClass.parse (SchemaClass.mk (pre ++ (n, s) :: restA) par) soup
      = Except.error e ∧
    SchemaClass.parse (SchemaClass.mk (pre ++ (n, s) :: restB) par) soup
      = Except.error e ∧
    ∀ record, SchemaClass.parse (SchemaClass.mk (pre ++ (n, s) :: restA) par) soup
        ≠ Except.ok record := by
  have hA := parseFields_prefix_error pre n s restA soup e hpre hs
  have hB := parseFields_prefix_error pre n s restB soup e hpre hs
  refine ⟨hA, hB, ?_⟩
  intro record hrec
  rw [SchemaClass.parse, SchemaClass.getSelectors, SchemaClass.ownSelectors] at hrec
  rw [hA] at hrec
  cases hrec

/-- Witness for c6_parse_fail_fast: field a (required, zero matches) precedes
field b (required, would succeed on the title element); parse raises the
error naming a's pattern. -/
theorem c6_parse_fail_fast_witness :
    SchemaClass.parse
        (SchemaClass.mk
          [("a", Sel.base "missing" true false), ("b", Sel.base "title" true false)]
          Option.none)
        demoSoup
      = Except.error (ValidationError.noneFound "missing") :=
  (c6_parse_fail_fast [] [("b", Sel.base "title" true false)] [] "a"
      (Sel.base "missing" true false) Option.none demoSoup
      (ValidationError.noneFound "missing")
      (fun x hx => absurd hx (List.not_mem_nil x)) rfl).1

/-- C7: for a matched element, base value extraction prefers the content
attribute's string value and falls back to the element's text content; the
per-element policy is what a resolving Rule applies to its match. -/
theorem c7_content_heuristic (p : String) (req : Bool) (soup : Soup) (e : Elem)
    (h : soup.select p = [e]) :
    Sel.resolve (Sel.base p req true) soup
      = Except.ok (Value.list [Selector.getValue (Option.some e)]) ∧
    (∀ c, e.attrs.lookup "content" = Option.some c
        → Selector.getValue (Option.some e) = Value.str c) ∧
    (e.attrs.lookup "content" = Option.none
        → Selector.getValue (Option.some e) = Value.str e.text) := by
  refine ⟨?_, ?_, ?_⟩
  · simp [Sel.resolve, Selector.extract, h, Value.truthy]
  · intro c hc
    simp [Selector.getValue, hc]
  · intro hc
    simp [Selector.getValue, hc]

/-- Witness for c7_content_heuristic: the meta description element (value from
its content attribute) and the title element (value from its text). -/
theorem c7_content_heuristic_witness :
    Sel.resolve (Sel.base "[name=description]" false true) demoSoup
      = Except.ok (Value.list [Value.str "A desc"]) ∧
    Sel.resolve (Sel.base "title" false true) demoSoup
      = Except.ok (Value.list [Value.str "Hello"]) :=
  ⟨(c7_content_heuristic "[name=description]" false demoSoup metaDesc rfl).1,
   (c7_content_heuristic "title" false demoSoup titleElem rfl).1⟩

/-- C8: AttributeRule value extraction returns the named target attribute's
value when present and None otherwise, never consulting the content
heuristic: whenever the target attribute is present its value is extracted,
whatever else — including a content attribute — the element carries. -/
theorem c8_attr_ignores_content (p a : String) (req : Bool) (soup : Soup) (e : Elem)
    (v : String) (h : soup.select p = [e]) (hv : e.attrs.lookup a = Option.some v) :
    Sel.resolve (Sel.attr p a req true) soup = Except.ok (Value.list [Value.str v]) ∧
    AttrSelector.getValue a (Option.some e) = Value.str v ∧
    (∀ e2 : Elem, e2.attrs.lookup a = Option.none
        → AttrSelector.getValue a (Option.some e2) = Value.none) := by
  refine ⟨?_, ?_, ?_⟩
  · simp [Sel.resolve, Selector.extract, h, AttrSelector.getValue, hv, Value.truthy]
  · simp [AttrSelector.getValue, hv]
  · intro e2 he2
    simp [AttrSelector.getValue, he2]

/-- Witness for c8_attr_ignores_content: the timing element carries both a
content attribute (value C) and the target datetime attribute; the attribute
rule extracts PT30M, not C. -/
theorem c8_attr_ignores_content_witness :
    Sel.resolve (Sel.attr "[itemprop=cookTime]" "datetime" false true) demoSoup
      = Except.ok (Value.list [Value.str "PT30M"]) ∧
    timeElem.attrs.lookup "content" = Option.some "C" :=
  ⟨(c8_attr_ignores_content "[itemprop=cookTime]" "datetime" false demoSoup timeElem
      "PT30M" rfl rfl).1, rfl⟩

/-- C10: field enumeration reads only the class's own dictionary, so for a
Schema subclass B deriving from a Schema subclass A, a selector name declared
on A but not on B is neither resolved by B.parse (a successful parse binds
exactly B's own selector names) nor listed among B's representation
fields. -/
theorem c10_inherited_selectors_ignored (aOwn bOwn : List (String × Sel))
    (par : Option SchemaClass) (soup : Soup) (n : String)
    (hA : n ∈ aOwn.map Prod.fst) (hB : n ∉ bOwn.map Prod.fst) :
    SchemaClass.getSelectors
        (SchemaClass.mk bOwn (Option.some (SchemaClass.mk aOwn par))) = bOwn ∧
    (∀ record,
        SchemaClass.parse
            (SchemaClass.mk bOwn (Option.some (SchemaClass.mk aOwn par))) soup
          = Except.ok record
        → record.map Prod.fst = bOwn.map Prod.fst ∧ n ∉ record.map Prod.fst) ∧
    n ∉ SchemaClass.reprFields
        (SchemaClass.mk bOwn (Option.some (SchemaClass.mk aOwn par))) ∧
    n ∈ SchemaClass.reprFields (SchemaClass.mk aOwn par) := by
  refine ⟨rfl, ?_, hB, hA⟩
  intro record hrec
  have hnames := parseFields_names bOwn soup record hrec
  exact ⟨hnames, by rw [hnames]; exact hB⟩

/-- Witness for c10_inherited_selectors_ignored: the base class declares a
required title selector, the derived class only a body selector; the derived
parse succeeds (binding only body, as None) even though the title selector
would have succeeded, and title is absent from the derived class's fields. -/
theorem c10_inherited_selectors_ignored_witness :
    "title" ∉ SchemaClass.reprFields
        (SchemaClass.mk [("body", Sel.base "body" false false)]
          (Option.some
            (SchemaClass.mk [("title", Sel.base "title" true false)] Option.none))) :=
  (c10_inherited_selectors_ignored [("title", Sel.base "title" true false)]
      [("body", Sel.base "body" false false)] Option.none demoSoup "title"
      (by simp) (by simp)).2.2.1

end SoupSchema
